import Mathlib

/-!
A verification development for the payments-service accounts core: the credential
hasher, token issuer, persistence gateway and authentication orchestrator are
shallowly embedded from the Python source (`src/app/...`), and the spec's claims
about them are settled as theorems.  Machine integers, UUIDs and datetimes are
modelled as `Nat` (datetimes in minutes); Python exceptions are modelled as an
explicit error type threaded through `Except`.
-/

deriving instance DecidableEq for Except

/-- Python exception values that the embedded code can raise.  Exceptions that a
constructor slip prevents from ever being built (the `app.common.exceptions`
token errors, see `mkCommonTokenError`) still appear as constructors so that the
`except` clauses that would catch them are representable. -/
inductive PyExc where
  | typeError (msg : String)
  | valueError (msg : String)
  | keyError (key : String)
  | attributeError (msg : String)
  /-- `app.accounts.exceptions.UserNotFoundError` (a `DomainError`). -/
  | userNotFoundError (msg : String)
  /-- `app.accounts.exceptions.AuthenticationError`. -/
  | authenticationError (msg : String)
  /-- `app.accounts.exceptions.InactiveUserError`. -/
  | inactiveUserError (msg : String)
  /-- `app.accounts.exceptions.TokenError` (subclasses `DomainError`; constructible). -/
  | accountsTokenError (msg : String)
  /-- `app.common.exceptions.RecordNotFoundError entity_type identifier`. -/
  | recordNotFoundError (entityType : String) (identifier : String)
  | repositoryError (msg : String)
  | validationError (msg : String)
  /-- `app.common.exceptions.TokenError` as a value: never actually produced,
  because its constructor raises `TypeError` (see `mkCommonTokenError`). -/
  | commonTokenError (msg : String)
  /-- `app.common.exceptions.InvalidTokenError` as a value: never produced. -/
  | commonInvalidTokenError (msg : String)
  /-- `app.common.exceptions.ExpiredTokenError` as a value: never produced. -/
  | commonExpiredTokenError (msg : String)
  /-- PyJWT `jwt.ExpiredSignatureError`. -/
  | jwtExpiredSignatureError
  /-- PyJWT `jwt.InvalidTokenError` (including `DecodeError`). -/
  | jwtInvalidTokenError (msg : String)
  /-- passlib `MalformedHashError` (a `ValueError` subclass). -/
  | malformedHashError (msg : String)
deriving DecidableEq, Repr

/-- Constructing `app.common.exceptions.TokenError(message, token=..., code=..., details=...)`:
its `__init__` forwards `message`, `code` and `details` as keyword arguments to
`super().__init__`, but its superclass is `Exception`, whose `__init__` rejects
keyword arguments.  The construction itself therefore raises `TypeError` instead
of producing a `TokenError` value. -/
def mkCommonTokenError (_message : String) : PyExc :=
  PyExc.typeError "Exception() takes no keyword arguments"

/-- `app.common.exceptions.InvalidTokenError.__init__` delegates to the broken
`TokenError.__init__`, so constructing it also raises `TypeError`. -/
def mkCommonInvalidTokenError (message : String) : PyExc :=
  mkCommonTokenError message

/-- `app.common.exceptions.ExpiredTokenError.__init__` delegates to the broken
`TokenError.__init__`, so constructing it also raises `TypeError`. -/
def mkCommonExpiredTokenError (message : String) : PyExc :=
  mkCommonTokenError message

/-- Constructing `app.accounts.exceptions.UserNotFoundError`: the class defines no
`__init__` of its own, so by method resolution order the constructor is
`RecordNotFoundError.__init__(entity_type, identifier, code=None, details=None)`.
A call that passes a single positional message (as `get_logged_in_user` does)
binds `entity_type` only and raises `TypeError` for the missing `identifier`;
a call that also passes `identifier` (as `authenticate_user` does) succeeds. -/
def mkUserNotFoundError (entityType : String) (identifier : Option String) : PyExc :=
  match identifier with
  | some i => PyExc.userNotFoundError (entityType ++ " with identifier '" ++ i ++ "' not found")
  | none => PyExc.typeError "__init__() missing 1 required positional argument: 'identifier'"

/-- `app.accounts.entities.user.UserStatus`. -/
inductive UserStatus where
  | active
  | inactive
  | suspended
deriving DecidableEq, Repr

/-- `UserStatus.value`, the string payload of the enum member. -/
def UserStatus.toValue : UserStatus → String
  | .active => "active"
  | .inactive => "inactive"
  | .suspended => "suspended"

/-- `app.common.value_objects.email.Email`: a pydantic value object with the single
declared field `value` holding the normalized address. -/
structure Email where
  value : String
deriving DecidableEq, Repr

/-- Character class `[a-zA-Z0-9._%+-]` of the local part of the email pattern. -/
def isEmailLocalChar (c : Char) : Bool :=
  c.isAlphanum || c = '.' || c = '_' || c = '%' || c = '+' || c = '-'

/-- Character class `[a-zA-Z0-9.-]` of the domain body of the email pattern. -/
def isEmailDomainChar (c : Char) : Bool :=
  c.isAlphanum || c = '.' || c = '-'

/-- Python `str.split(sep)` for a one-character separator, over the character
list of the string. -/
def splitOnChar (sep : Char) : List Char → List (List Char)
  | [] => [[]]
  | c :: cs =>
    let rest := splitOnChar sep cs
    if c = sep then [] :: rest
    else
      match rest with
      | [] => [[c]]
      | r :: rs => (c :: r) :: rs

/-- Joining pieces back with a one-character separator (inverse of the split). -/
def joinWithChar (sep : Char) : List (List Char) → List Char
  | [] => []
  | [p] => p
  | p :: ps => p ++ sep :: joinWithChar sep ps

/-- Python `str.strip()`: removes leading and trailing whitespace. -/
def stripChars (l : List Char) : List Char :=
  ((l.dropWhile Char.isWhitespace).reverse.dropWhile Char.isWhitespace).reverse

/-- Whether a (stripped) string matches the anchored pattern
`[a-zA-Z0-9._%+-]+@[a-zA-Z0-9.-]+\.[a-zA-Z]\x7b2,\x7d` used by
`Email.validate_and_normalize_email`.  Because none of the character classes
contain `@`, a match has exactly one `@`; because the top-level-domain class
excludes `.`, the dot preceding it is the last dot of the domain, so greedy
matching coincides with splitting at the last dot. -/
def emailPatternMatch (v : List Char) : Bool :=
  match splitOnChar '@' v with
  | [localPart, domain] =>
    !localPart.isEmpty && localPart.all isEmailLocalChar &&
    (let parts := splitOnChar '.' domain
     decide (2 ≤ parts.length) &&
     (match parts.getLast? with
      | some tld =>
        decide (2 ≤ tld.length) && tld.all Char.isAlpha &&
        (let body := joinWithChar '.' parts.dropLast
         !body.isEmpty && body.all isEmailDomainChar)
      | none => false))
  | _ => false

/-- Constructing `Email(v)`: the `before`-mode validator rejects a falsy input,
strips whitespace, matches the pattern and lowercases the domain
(`f"\x7blocal\x7d@\x7bdomain.lower()\x7d"`).  A `ValueError` raised inside a
pydantic validator surfaces as a pydantic `ValidationError`, which subclasses
`ValueError`; we model both as `valueError`. -/
def Email.make (v : String) : Except PyExc Email :=
  if v = "" then .error (.valueError "Email cannot be empty")
  else
    let w := stripChars v.data
    if emailPatternMatch w then
      match splitOnChar '@' w with
      | [localPart, domain] => .ok ⟨String.mk (localPart ++ '@' :: domain.map Char.toLower)⟩
      | _ => .ok ⟨String.mk (w.map Char.toLower)⟩
    else .error (.valueError "Invalid email format")

/-- `app.accounts.entities.user.User`, the pydantic aggregate root.  UUIDs and
datetimes are `Nat`; `password` is the transient raw-secret field. -/
structure User where
  id : Nat
  email : Email
  organization_id : Nat
  hashed_password : String
  name : Option String
  password : Option String
  status : UserStatus
  created_at : Nat
  last_login : Option Nat
deriving DecidableEq, Repr

/-- The attribute names that the pydantic `User` model declares as fields. -/
def userFieldNames : List String :=
  ["id", "email", "organization_id", "hashed_password", "name", "password",
   "status", "created_at", "last_login"]

/-- pydantic `BaseModel.__setattr__` on `User` for a datetime value: a declared
field is updated (`created_at` and `last_login` are the datetime-typed ones; an
assignment of a datetime to one of the other declared fields would store an
ill-typed value and is left as the identity here, no code path performs it),
while an attribute name that is not a declared field raises `ValueError`. -/
def User.pysetattrDatetime (u : User) (name : String) (v : Nat) : Except PyExc User :=
  if userFieldNames.contains name then
    if name = "created_at" then .ok { u with created_at := v }
    else if name = "last_login" then .ok { u with last_login := some v }
    else .ok u
  else .error (.valueError ("\"User\" object has no field \"" ++ name ++ "\""))

/-- Attribute lookup on the `Email` value object: `value` is its only declared
field (plus methods not relevant here); any other name raises `AttributeError`. -/
def Email.getattr (e : Email) (name : String) : Except PyExc String :=
  if name = "value" then .ok e.value
  else .error (.attributeError ("'Email' object has no attribute '" ++ name ++ "'"))

/-- A JWT claim value: a JSON string or a JSON number (integers suffice here). -/
inductive ClaimVal where
  | vStr (s : String)
  | vNat (n : Nat)
deriving DecidableEq, Repr

/-- A claims payload: a Python dict as an insertion-ordered association list with
unique keys. -/
abbrev Claims := List (String × ClaimVal)

/-- Dict read: `payload.get(k)` / `payload[k]` lookup. -/
def Claims.get? (c : Claims) (k : String) : Option ClaimVal :=
  List.lookup k c

/-- Dict write: `payload[k] = v` (also `payload.update(...)` for one key) replaces
the value at an existing key in place, otherwise appends the binding. -/
def Claims.set : Claims → String → ClaimVal → Claims
  | [], k, v => [(k, v)]
  | (k', v') :: rest, k, v =>
    if k' = k then (k, v) :: rest else (k', v') :: Claims.set rest k v

/-- Dict delete: `del payload[k]` removes the binding for `k`. -/
def Claims.erase : Claims → String → Claims
  | [], _ => []
  | (k', v') :: rest, k =>
    if k' = k then Claims.erase rest k else (k', v') :: Claims.erase rest k

/-- Python `int(s)` on a decimal string, over the character list. -/
def parseDecimal (l : List Char) : Option Nat :=
  if !l.isEmpty && l.all Char.isDigit then
    some (l.foldl (fun n c => n * 10 + (c.toNat - '0'.toNat)) 0)
  else none

/-- The coercion `int(exp)` that PyJWT applies to the `exp` claim: an integer is
kept, a numeric string parses, anything else raises `ValueError`. -/
def ClaimVal.toInt? : ClaimVal → Option Nat
  | .vNat n => some n
  | .vStr s => parseDecimal s.data

/-- A token string, abstracted: either a structurally well-formed JWT signed with
a given key and carrying a claims payload, or an arbitrary malformed string. -/
inductive Tok where
  | signed (key : String) (claims : Claims)
  | malformed (s : String)
deriving DecidableEq, Repr

/-- `jwt.encode(claims, key, algorithm)` (PyJWT). -/
def pyjwtEncode (key : String) (claims : Claims) : Tok :=
  Tok.signed key claims

/-- `jwt.decode(token, key, algorithms=[alg])` (PyJWT): structure and signature
are verified first (`DecodeError`/`InvalidSignatureError`, both
`jwt.InvalidTokenError`s), then the registered `exp` claim is validated —
`ExpiredSignatureError` when `int(exp) <= now`, `DecodeError` when `exp` is not
an integer. -/
def pyjwtDecode (key : String) (now : Nat) (t : Tok) : Except PyExc Claims :=
  match t with
  | .malformed _ => .error (.jwtInvalidTokenError "Not enough segments")
  | .signed k c =>
    if k ≠ key then .error (.jwtInvalidTokenError "Signature verification failed")
    else
      match c.get? "exp" with
      | none => .ok c
      | some v =>
        match v.toInt? with
        | none => .error (.jwtInvalidTokenError "Expiration Time claim (exp) must be an integer.")
        | some e => if e ≤ now then .error .jwtExpiredSignatureError else .ok c

/-- `JWTManager.DEFAULT_EXPIRE_MINUTES`. -/
def DEFAULT_EXPIRE_MINUTES : Nat := 15

/-- `JWTManager.create_access_token(data, expires_delta)`: copies the claims,
computes `expire = now + (expires_delta or 15 minutes)`, stores it under `exp`
and signs.  The surrounding `try/except` would wrap an encoding failure in a
(broken) common `TokenError`, but `jwt.encode` cannot fail in this model. -/
def JWTManager.create_access_token (secret : String) (now : Nat)
    (data : Claims) (expires_delta : Option Nat) : Tok :=
  let expire := now + expires_delta.getD DEFAULT_EXPIRE_MINUTES
  pyjwtEncode secret (Claims.set data "exp" (.vNat expire))

/-- `JWTManager.decode_token(token)`: delegates to `jwt.decode`; on
`ExpiredSignatureError` it executes `raise ExpiredTokenError("Token has expired")`
and on `InvalidTokenError` it executes `raise InvalidTokenError(...)` — both of
which raise `TypeError` from the broken common token-error constructors. -/
def JWTManager.decode_token (secret : String) (now : Nat) (token : Tok) :
    Except PyExc Claims :=
  match pyjwtDecode secret now token with
  | .ok c => .ok c
  | .error .jwtExpiredSignatureError =>
    .error (mkCommonExpiredTokenError "Token has expired")
  | .error (.jwtInvalidTokenError m) =>
    .error (mkCommonInvalidTokenError ("Invalid token: " ++ m))
  | .error e => .error e

/-- `JWTManager.refresh_token(token, expires_delta)`: decodes, deletes the `exp`
claim (`KeyError` if absent), and re-issues.  The `except (ExpiredTokenError,
InvalidTokenError)` clause would wrap those two error values in a common
`TokenError`; since `decode_token`'s failures are `TypeError` values instead,
the clause never matches and the failure propagates unchanged. -/
def JWTManager.refresh_token (secret : String) (now : Nat) (token : Tok)
    (expires_delta : Option Nat) : Except PyExc Tok :=
  match JWTManager.decode_token secret now token with
  | .ok payload =>
    match payload.get? "exp" with
    | some _ =>
      .ok (JWTManager.create_access_token secret now (payload.erase "exp") expires_delta)
    | none => .error (.keyError "exp")
  | .error (.commonExpiredTokenError m) =>
    .error (mkCommonTokenError ("Cannot refresh invalid token: " ++ m))
  | .error (.commonInvalidTokenError m) =>
    .error (mkCommonTokenError ("Cannot refresh invalid token: " ++ m))
  | .error e => .error e

/-- `Argon2PasswordHasher.verify(plain_password, hashed_password)`: raises
`ValueError` when either argument is empty (falsy), otherwise delegates to
`self.pwd_context.verify`.  The passlib context is third-party code, so it is a
parameter `ctxVerify`: it returns the boolean comparison outcome for a
recognizable hash and raises (e.g. `MalformedHashError`) for an unparseable one. -/
def Argon2PasswordHasher.verify (ctxVerify : String → String → Except PyExc Bool)
    (plain_password hashed_password : String) : Except PyExc Bool :=
  if plain_password = "" ∨ hashed_password = "" then
    .error (.valueError "Password and hash must not be empty")
  else ctxVerify plain_password hashed_password

/-- The in-memory repository's `_storage` dict: an insertion-ordered association
list from identifier to entity with unique keys (`Dict[UUID, T]`). -/
abbrev Storage (α : Type) := List (Nat × α)

/-- Python dict assignment `storage[k] = v`: replaces the value of an existing
key in place, otherwise appends the binding at the end. -/
def dictInsert {α : Type} : Storage α → Nat → α → Storage α
  | [], k, v => [(k, v)]
  | (k', v') :: rest, k, v =>
    if k' = k then (k, v) :: rest else (k', v') :: dictInsert rest k v

/-- `InMemoryRepository.save(entity)`: `self._storage[self._get_id(entity)] = entity`
and return the entity.  The `try/except` wraps an unexpected failure in
`RepositoryError`; dict assignment cannot fail in this model. -/
def InMemoryRepository.save {α : Type} (getId : α → Nat) (store : Storage α)
    (entity : α) : Storage α :=
  dictInsert store (getId entity) entity

/-- `InMemoryRepository.get(id)`: `self._storage.get(id)`, raising
`RecordNotFoundError(entity_type, identifier)` when absent (an entity instance
is always truthy). -/
def InMemoryRepository.get {α : Type} (entityName : String) (store : Storage α)
    (id : Nat) : Except PyExc α :=
  match List.lookup id store with
  | some e => .ok e
  | none => .error (.recordNotFoundError entityName (toString id))

/-- `InMemoryRepository.delete(id)`: raises `RecordNotFoundError` when the key is
absent, otherwise deletes the entry and returns `True`. -/
def InMemoryRepository.delete {α : Type} (entityName : String) (store : Storage α)
    (id : Nat) : Except PyExc (Bool × Storage α) :=
  if store.any (fun p => p.1 = id) then
    .ok (true, store.filter (fun p => p.1 ≠ id))
  else .error (.recordNotFoundError entityName (toString id))

/-- Stable insertion of `x` after every element whose key is ≤ its own, the
building block of a stable sort. -/
def insertSorted {α : Type} (key : α → Nat) (x : α) : List α → List α
  | [] => [x]
  | y :: ys => if key x < key y then x :: y :: ys else y :: insertSorted key x ys

/-- Python's stable `list.sort(key=...)`, as a left-to-right insertion sort. -/
def stableSortByKey {α : Type} (key : α → Nat) (l : List α) : List α :=
  l.foldl (fun acc x => insertSorted key x acc) []

/-- `InMemoryRepository.list_all(limit, offset, sort_by, filters)`: takes the dict
values in insertion order, filters (`all(getattr(e, k) == v ...)`, abstracted to
a predicate), sorts by the given key if any, and slices
`entities[offset : offset + limit]`. -/
def InMemoryRepository.list_all {α : Type} (store : Storage α)
    (limit offset : Nat) (sort_by : Option (α → Nat)) (filters : Option (α → Bool)) :
    List α :=
  let entities := store.map Prod.snd
  let entities := match filters with
    | some p => entities.filter p
    | none => entities
  let entities := match sort_by with
    | some key => stableSortByKey key entities
    | none => entities
  (entities.drop offset).take limit

/-- `InMemoryUserRepository.update_login_time(user_id)`: fetches the user by id
(`self.get`, which raises `RecordNotFoundError` when absent), then executes
`user.last_login_at = datetime.now()` — an assignment to an attribute that the
pydantic `User` model does not declare (its field is `last_login`) — and saves.
-/
def InMemoryUserRepository.update_login_time (store : Storage User)
    (user_id : Nat) (now : Nat) : Except PyExc (Storage User) := do
  let user ← InMemoryRepository.get "InMemoryUserRepository" store user_id
  let user ← user.pysetattrDatetime "last_login_at" now
  pure (InMemoryRepository.save User.id store user)

/-- `AuthService.authenticate_user(email, password)`.  The service is written
against the `UserRepository` and `PasswordHasher` interfaces, so the repository
lookup and the hash verification are parameters.  The method performs a single
repository read and no write, so the storage is returned unchanged alongside
the outcome. -/
def AuthService.authenticate_user
    (get_by_email : Storage User → String → Option User)
    (verify : String → String → Except PyExc Bool)
    (store : Storage User) (email password : String) :
    Except PyExc User × Storage User :=
  let result : Except PyExc User :=
    match get_by_email store email with
    | none =>
      .error (mkUserNotFoundError ("User with email " ++ email ++ " not found") (some email))
    | some user =>
      match verify password user.hashed_password with
      | .error e => .error e
      | .ok ok =>
        if !ok then .error (.authenticationError "Invalid email or password")
        else if user.status ≠ UserStatus.active then
          .error (.inactiveUserError "User account is not active")
        else .ok user
  (result, store)

/-- `Email(payload.get("email"))` in `get_logged_in_user`: a missing or falsy
claim fails the validator's emptiness check, a string claim is validated and
normalized, a non-zero integer claim reaches `v.strip()` and raises
`AttributeError`. -/
def emailFromClaim : Option ClaimVal → Except PyExc Email
  | none => .error (.valueError "Email cannot be empty")
  | some (.vStr s) => Email.make s
  | some (.vNat n) =>
    if n = 0 then .error (.valueError "Email cannot be empty")
    else .error (.attributeError "'int' object has no attribute 'strip'")

/-- `UUID(payload.get("user_id"))` in `get_logged_in_user`: a decimal string
parses into the (Nat-modelled) identifier, a malformed string raises
`ValueError`, a missing or integer-valued claim raises `TypeError` (which the
surrounding `except (ValueError, KeyError)` does not catch). -/
def uuidFromClaim : Option ClaimVal → Except PyExc Nat
  | some (.vStr s) =>
    match parseDecimal s.data with
    | some n => .ok n
    | none => .error (.valueError "badly formed hexadecimal UUID string")
  | some (.vNat _) =>
    .error (.typeError "one of the hex, bytes, bytes_le, fields, or int arguments must be given")
  | none =>
    .error (.typeError "one of the hex, bytes, bytes_le, fields, or int arguments must be given")

/-- The `except (ValueError, KeyError) as e: raise TokenError(...)` clause of
`get_logged_in_user`, over the result of its `try` block: a `ValueError` (which
includes pydantic validation errors) or `KeyError` is replaced by the accounts
`TokenError` (whose constructor, via `DomainError`, works); anything else
propagates. -/
def catchValueKeyAsTokenError {α : Type} : Except PyExc α → Except PyExc α
  | .error (.valueError m) => .error (.accountsTokenError ("Invalid token payload: " ++ m))
  | .error (.malformedHashError m) => .error (.accountsTokenError ("Invalid token payload: " ++ m))
  | .error (.keyError k) => .error (.accountsTokenError ("Invalid token payload: " ++ k))
  | r => r

/-- `AuthService.get_logged_in_user(token)`: decodes the token and parses the
`email` and `user_id` claims inside a `try` whose `except (ValueError, KeyError)`
re-raises as the accounts `TokenError`; re-fetches the principal by email
(interface-level lookup, a parameter); raises `UserNotFoundError("User not
found")` — which, missing its required `identifier` argument, is itself a
`TypeError` — when absent; checks the identifier and the status; and finally
calls `update_login_time` (a parameter, instantiated with the in-memory
implementation in the theorems) before returning the user. -/
def AuthService.get_logged_in_user (secret : String) (now : Nat)
    (get_by_email : Storage User → String → Option User)
    (update_login_time : Storage User → Nat → Except PyExc (Storage User))
    (store : Storage User) (token : Tok) :
    Except PyExc User × Storage User :=
  let parsed : Except PyExc (Email × Nat) :=
    catchValueKeyAsTokenError (do
      let payload ← JWTManager.decode_token secret now token
      let email ← emailFromClaim (payload.get? "email")
      let user_id ← uuidFromClaim (payload.get? "user_id")
      pure (email, user_id))
  match parsed with
  | .error e => (.error e, store)
  | .ok (email, user_id) =>
    match get_by_email store email.value with
    | none => (.error (mkUserNotFoundError "User not found" none), store)
    | some user =>
      if user.id ≠ user_id then
        (.error (.accountsTokenError "Token user ID mismatch"), store)
      else if user.status ≠ UserStatus.active then
        (.error (.inactiveUserError "User account is not active"), store)
      else
        match update_login_time store user.id with
        | .error e => (.error e, store)
        | .ok store' => (.ok user, store')

/-- `app.accounts.adapters.db.sql_model.models.UserORM`, the relational row
model for users (datetimes and UUIDs as `Nat`; `status` stored as its string
value). -/
structure UserORM where
  id : Nat
  name : Option String
  email : String
  hashed_password : String
  last_login_at : Option Nat
  organization_id : Nat
  created_at : Nat
  status : String
deriving DecidableEq, Repr

/-- `SQLModelUserRepository._to_model(user)`: builds a `UserORM` from the domain
entity.  Its email argument is `user.email.email_address` — an attribute the
`Email` value object (whose only field is `value`) does not have, so evaluating
that argument raises `AttributeError` before the row is constructed. -/
def SQLModelUserRepository.to_model (user : User) : Except PyExc UserORM := do
  let emailArg ← user.email.getattr "email_address"
  pure
    { id := user.id
      email := emailArg
      name := user.name
      status := user.status.toValue
      hashed_password := user.hashed_password
      organization_id := user.organization_id
      created_at := user.created_at
      last_login_at := user.last_login }

/-- `SQLModelUserRepository._to_entity(model)`: builds the domain `User` from a
row.  `User(...)` is called with `id`, `email=Email(model.email)` (validated),
`name`, `hashed_password`, `organization_id`, `created_at` and
`last_login=model.last_login_at`; the `status` column is not passed, so the
entity takes the pydantic default `UserStatus.ACTIVE`, and `password` defaults
to `None`. -/
def SQLModelUserRepository.to_entity (model : UserORM) : Except PyExc User := do
  let email ← Email.make model.email
  pure
    { id := model.id
      email := email
      name := model.name
      hashed_password := model.hashed_password
      organization_id := model.organization_id
      created_at := model.created_at
      last_login := model.last_login_at
      password := none
      status := UserStatus.active }

/-- `SQLModelRepository.delete(id)`: issues `DELETE ... WHERE model.id == id`,
commits, and returns `result.rowcount > 0`; no error is raised when nothing
matches (the `try/except` only converts database failures into
`RepositoryError`).  The table is the list of rows; `getId` reads a row's
primary key. -/
def SQLModelRepository.delete {μ : Type} (getId : μ → Nat) (table : List μ)
    (id : Nat) : Bool × List μ :=
  let remaining := table.filter (fun m => getId m ≠ id)
  (decide (remaining.length < table.length), remaining)

/-- A column value of a relational row (strings and integers suffice here). -/
inductive FieldVal where
  | str (s : String)
  | int (n : Nat)
deriving DecidableEq, Repr

/-- SQL `<=` on column values: defined within one type, false across types (a
comparison with an incompatible or NULL operand matches no row). -/
def FieldVal.leB : FieldVal → FieldVal → Bool
  | .int a, .int b => decide (a ≤ b)
  | .str a, .str b => decide (a ≤ b)
  | _, _ => false

/-- A relational row: field name to column value. -/
abbrev SqlRow := List (String × FieldVal)

/-- Reading a column of a row. -/
def SqlRow.get? (r : SqlRow) (f : String) : Option FieldVal :=
  List.lookup f r

/-- The value shapes of the filter DSL accepted by `SQLModelRepository._filter`:
a scalar, a list, or a range/pattern dict whose recognized keys are `min`,
`max` and `like`. -/
inductive FilterVal where
  | scalar (v : FieldVal)
  | vals (vs : List FieldVal)
  | range (min max : Option FieldVal) (like : Option String)
deriving DecidableEq, Repr

/-- Whether a row satisfies the `where` clauses that one `(field, value)` filter
entry contributes in `_filter`: equality for a scalar, `column.in_` membership
for a list, and the conjunction of `column >= min`, `column <= max` and
`column.like(pattern)` for a dict (each only when the key is present).  The SQL
`LIKE` operator is a parameter `likeFn colValue pattern`. -/
def sqlCondSatisfied (likeFn : String → String → Bool) (r : SqlRow)
    (f : String) (v : FilterVal) : Bool :=
  match v with
  | .scalar x => r.get? f == some x
  | .vals xs =>
    match r.get? f with
    | some x => xs.contains x
    | none => false
  | .range mn mx lk =>
    (match mn with
     | some m => match r.get? f with
       | some x => FieldVal.leB m x
       | none => false
     | none => true) &&
    (match mx with
     | some m => match r.get? f with
       | some x => FieldVal.leB x m
       | none => false
     | none => true) &&
    (match lk with
     | some pat => match r.get? f with
       | some (.str s) => likeFn s pat
       | _ => false
     | none => true)

/-- `SQLModelRepository._filter(stmt, filters)` applied to a result set: the
loop looks each filter key up on the model class (`getattr(self.model, field,
None)`); an unknown field yields `None` and the entry is skipped (`continue`),
a known field narrows the result set with the entry's `where` clauses.  The
model class is represented by its list of mapped field names. -/
def SQLModelRepository.applyFilter (fields : List String)
    (likeFn : String → String → Bool) (filters : List (String × FilterVal))
    (rows : List SqlRow) : List SqlRow :=
  filters.foldl
    (fun acc fv =>
      if fields.contains fv.1 then acc.filter (fun r => sqlCondSatisfied likeFn r fv.1 fv.2)
      else acc)
    rows

/-- A concrete stored active principal for scenario instantiations. -/
def alice : User :=
  { id := 1, email := ⟨"alice@example.com"⟩, organization_id := 7,
    hashed_password := "h1", name := some "Alice", password := none,
    status := UserStatus.active, created_at := 0, last_login := none }

/-- The same principal deactivated, for round-trip and status scenarios. -/
def aliceInactive : User :=
  { alice with status := UserStatus.inactive, created_at := 5, last_login := some 9 }

/-- The relational row holding the deactivated principal's data. -/
def aliceInactiveRow : UserORM :=
  { id := 1, name := some "Alice", email := "alice@example.com",
    hashed_password := "h1", last_login_at := some 9, organization_id := 7,
    created_at := 5, status := "inactive" }

/-- An interface-conforming `get_by_email` used to instantiate the repository
parameter in concrete scenarios: first stored user with the given (already
normalized) email. -/
def lookupByEmail (store : Storage User) (email : String) : Option User :=
  (store.map Prod.snd).find? (fun u => u.email.value == email)

/-- C1: `authenticate_user` fails with `UserNotFoundError` when the lookup finds
no principal, with `AuthenticationError` when the secret does not verify, with
`InactiveUserError` when the secret verifies but the principal is not active,
and returns the stored principal unchanged when the secret verifies and the
principal is active; in every case the stored state is left unmodified. -/
theorem C1_authenticate_user_spec
    (get_by_email : Storage User → String → Option User)
    (verify : String → String → Except PyExc Bool)
    (store : Storage User) (email password : String) :
    (get_by_email store email = none →
      AuthService.authenticate_user get_by_email verify store email password =
        (.error (mkUserNotFoundError ("User with email " ++ email ++ " not found") (some email)),
         store)) ∧
    (∀ u, get_by_email store email = some u →
      (verify password u.hashed_password = .ok false →
        AuthService.authenticate_user get_by_email verify store email password =
          (.error (.authenticationError "Invalid email or password"), store)) ∧
      (verify password u.hashed_password = .ok true → u.status ≠ UserStatus.active →
        AuthService.authenticate_user get_by_email verify store email password =
          (.error (.inactiveUserError "User account is not active"), store)) ∧
      (verify password u.hashed_password = .ok true → u.status = UserStatus.active →
        AuthService.authenticate_user get_by_email verify store email password =
          (.ok u, store))) ∧
    (AuthService.authenticate_user get_by_email verify store email password).2 = store := by
  refine ⟨fun h => ?_, fun u hu => ⟨fun hv => ?_, fun hv hs => ?_, fun hv hs => ?_⟩, ?_⟩
  · simp [AuthService.authenticate_user, h]
  · simp [AuthService.authenticate_user, hu, hv]
  · simp [AuthService.authenticate_user, hu, hv, hs]
  · simp [AuthService.authenticate_user, hu, hv, hs]
  · rfl

/-- C1 witness: the success case at a concrete store, lookup and verifier. -/
theorem C1_authenticate_user_spec_witness :
    AuthService.authenticate_user (fun _ _ => some alice) (fun _ _ => .ok true)
      [(1, alice)] "alice@example.com" "Secret123!" = (.ok alice, [(1, alice)]) :=
  ((C1_authenticate_user_spec (fun _ _ => some alice) (fun _ _ => .ok true)
      [(1, alice)] "alice@example.com" "Secret123!").2.1 alice rfl).2.2 rfl rfl

/-- C3: the two failure kinds of `decode_token` are not distinguishable as the
claim states: on an expired token the `raise ExpiredTokenError(...)` and on a
malformed token the `raise InvalidTokenError(...)` both blow up inside the
broken common token-error constructors, producing the identical `TypeError`. -/
theorem C3_decode_failure_kinds_collapse :
    JWTManager.decode_token "k" 100 (Tok.signed "k" [("exp", ClaimVal.vNat 50)]) =
      .error (.typeError "Exception() takes no keyword arguments") ∧
    JWTManager.decode_token "k" 100 (Tok.malformed "x") =
      .error (.typeError "Exception() takes no keyword arguments") ∧
    JWTManager.decode_token "k" 100 (Tok.signed "k" [("exp", ClaimVal.vNat 50)]) =
      JWTManager.decode_token "k" 100 (Tok.malformed "x") := by
  refine ⟨by decide, by decide, by decide⟩

/-- C4: the round trip `to_entity (to_model e) = e` fails: `to_model` evaluates
`user.email.email_address`, an attribute the `Email` value object does not have,
so it raises `AttributeError` on every entity; and `to_entity` does not map the
stored `status` column, so the row of a deactivated principal comes back with
the default `active` status. -/
theorem C4_roundtrip_fails :
    SQLModelUserRepository.to_model aliceInactive =
      .error (.attributeError "'Email' object has no attribute 'email_address'") ∧
    SQLModelUserRepository.to_entity aliceInactiveRow =
      .ok { aliceInactive with status := UserStatus.active } ∧
    UserStatus.active ≠ aliceInactive.status := by
  refine ⟨by decide, by decide, by decide⟩

/-- C5 counterexample: deleting an absent identifier is not uniform across the
two backends — the relational `delete` returns `false` and raises nothing,
while the volatile backend raises `RecordNotFoundError` as the claim states for
both. -/
theorem C5_sql_delete_absent_no_failure :
    SQLModelRepository.delete (fun (m : UserORM) => m.id) [] 1 = (false, []) ∧
    InMemoryRepository.delete "InMemoryRepository" ([] : Storage User) 1 =
      .error (.recordNotFoundError "InMemoryRepository" (toString 1)) := by
  refine ⟨by decide, by decide⟩

/-- C5 amended: the volatile backend's `delete` returns `true` after removing an
existing record and fails with `RecordNotFoundError` when the identifier is
absent; the relational backend's `delete` returns `true` when a row was removed
and `false` — without failing — when the identifier is absent, leaving the
table unchanged.  The absent-identifier behavior is therefore not uniform. -/
theorem C5_delete_per_backend {α μ : Type} (getId : μ → Nat) (name : String)
    (store : Storage α) (table : List μ) (id : Nat) :
    (store.any (fun p => p.1 = id) = true →
      InMemoryRepository.delete name store id =
        .ok (true, store.filter (fun p => p.1 ≠ id))) ∧
    (store.any (fun p => p.1 = id) = false →
      InMemoryRepository.delete name store id =
        .error (.recordNotFoundError name (toString id))) ∧
    ((∃ m ∈ table, getId m = id) →
      (SQLModelRepository.delete getId table id).1 = true) ∧
    ((∀ m ∈ table, getId m ≠ id) →
      SQLModelRepository.delete getId table id = (false, table)) := by
  refine ⟨fun h => ?_, fun h => ?_, fun h => ?_, fun h => ?_⟩
  · simp [InMemoryRepository.delete, h]
  · simp [InMemoryRepository.delete, h]
  · obtain ⟨m, hm, hid⟩ := h
    have hlt : (table.filter (fun x => getId x ≠ id)).length < table.length :=
      List.length_filter_lt_length_iff_exists.mpr ⟨m, hm, by simp [hid]⟩
    simp only [SQLModelRepository.delete]
    simpa using hlt
  · have hfix : table.filter (fun x => getId x ≠ id) = table :=
      List.filter_eq_self.mpr (by intro m hm; simpa using h m hm)
    simp only [SQLModelRepository.delete, hfix]
    simp

/-- C5 witness: both backends at a one-record store, present and absent cases. -/
theorem C5_delete_per_backend_witness :
    (SQLModelRepository.delete (fun (m : UserORM) => m.id) [aliceInactiveRow] 1).1 = true ∧
    InMemoryRepository.delete "InMemoryRepository" [(1, alice)] 1 =
      .ok (true, ([(1, alice)] : Storage User).filter (fun p => p.1 ≠ 1)) :=
  ⟨(C5_delete_per_backend (fun (m : UserORM) => m.id) "InMemoryRepository"
      ([] : Storage User) [aliceInactiveRow] 1).2.2.1 ⟨aliceInactiveRow, by decide, by decide⟩,
   (C5_delete_per_backend (fun (m : UserORM) => m.id) "InMemoryRepository"
      [(1, alice)] [aliceInactiveRow] 1).1 (by decide)⟩

/-- C6: `verify` fails with the empty-input `ValueError` when either argument is
empty; for non-empty arguments it adds no handling of its own, so whenever the
hashing backend classifies the hash and returns a boolean (`false` on a
well-formed but non-matching hash) `verify` returns it without raising, and
whenever the backend rejects a structurally unparseable hash with
`MalformedHashError`, `verify` fails with exactly that error. -/
theorem C6_verify_error_contract
    (ctxVerify : String → String → Except PyExc Bool) (secret hashString : String) :
    ((secret = "" ∨ hashString = "") →
      Argon2PasswordHasher.verify ctxVerify secret hashString =
        .error (.valueError "Password and hash must not be empty")) ∧
    (secret ≠ "" → hashString ≠ "" → ∀ b, ctxVerify secret hashString = .ok b →
      Argon2PasswordHasher.verify ctxVerify secret hashString = .ok b) ∧
    (secret ≠ "" → hashString ≠ "" → ∀ m,
      ctxVerify secret hashString = .error (.malformedHashError m) →
      Argon2PasswordHasher.verify ctxVerify secret hashString =
        .error (.malformedHashError m)) := by
  refine ⟨fun h => ?_, fun h1 h2 b hb => ?_, fun h1 h2 m hm => ?_⟩
  · simp [Argon2PasswordHasher.verify, h]
  · simp [Argon2PasswordHasher.verify, h1, h2, hb]
  · simp [Argon2PasswordHasher.verify, h1, h2, hm]

/-- C6 witness: a backend returning `false` on a malformed-but-recognized hash. -/
theorem C6_verify_error_contract_witness :
    Argon2PasswordHasher.verify (fun _ _ => .ok false) "Secret123!" "$argon2id$odd" =
      .ok false :=
  (C6_verify_error_contract (fun _ _ => .ok false) "Secret123!" "$argon2id$odd").2.1
    (by decide) (by decide) false rfl

/-- C10: with a stored principal present, authenticating with an empty secret
never reaches the credential comparison: the hasher's emptiness guard raises its
`ValueError` first, which `authenticate_user` propagates, so the failure is not
an `AuthenticationError`. -/
theorem C10_empty_secret_guard
    (ctxVerify : String → String → Except PyExc Bool)
    (get_by_email : Storage User → String → Option User)
    (store : Storage User) (email : String) (u : User)
    (hu : get_by_email store email = some u) (_hh : u.hashed_password ≠ "") :
    AuthService.authenticate_user get_by_email
        (Argon2PasswordHasher.verify ctxVerify) store email "" =
      (.error (.valueError "Password and hash must not be empty"), store) ∧
    ∀ m, (AuthService.authenticate_user get_by_email
        (Argon2PasswordHasher.verify ctxVerify) store email "").1 ≠
      .error (.authenticationError m) := by
  have hv : Argon2PasswordHasher.verify ctxVerify "" u.hashed_password =
      .error (.valueError "Password and hash must not be empty") := by
    simp [Argon2PasswordHasher.verify]
  constructor
  · simp [AuthService.authenticate_user, hu, hv]
  · intro m
    simp [AuthService.authenticate_user, hu, hv]

/-- C10 witness: the guard at the concrete stored principal. -/
theorem C10_empty_secret_guard_witness :
    AuthService.authenticate_user (fun _ _ => some alice)
        (Argon2PasswordHasher.verify (fun _ _ => .ok true)) [(1, alice)]
        "alice@example.com" "" =
      (.error (.valueError "Password and hash must not be empty"), [(1, alice)]) :=
  (C10_empty_secret_guard (fun _ _ => .ok true) (fun _ _ => some alice)
    [(1, alice)] "alice@example.com" alice rfl (by decide)).1

/-- Looking up the key just written by a dict update finds the new value. -/
theorem Claims.get?_set_self (c : Claims) (k : String) (v : ClaimVal) :
    (Claims.set c k v).get? k = some v := by
  induction c with
  | nil => simp [Claims.set, Claims.get?]
  | cons p rest ih =>
    obtain ⟨k', v'⟩ := p
    by_cases hk : k' = k
    · subst hk
      simp [Claims.set, Claims.get?]
    · have hb : (k == k') = false := beq_eq_false_iff_ne.mpr (Ne.symm hk)
      simp only [Claims.set, if_neg hk, Claims.get?, List.lookup_cons, hb]
      exact ih

/-- A dict update leaves the other keys' lookups unchanged. -/
theorem Claims.get?_set_ne (c : Claims) (k k' : String) (v : ClaimVal)
    (h : k' ≠ k) : (Claims.set c k v).get? k' = c.get? k' := by
  have hb : (k' == k) = false := beq_eq_false_iff_ne.mpr h
  induction c with
  | nil => simp [Claims.set, Claims.get?, List.lookup_cons, hb]
  | cons p rest ih =>
    obtain ⟨k₀, v₀⟩ := p
    by_cases hk : k₀ = k
    · subst hk
      simp [Claims.set, Claims.get?, List.lookup_cons, hb]
    · by_cases hk' : k' = k₀
      · subst hk'
        simp [Claims.set, Claims.get?, List.lookup_cons, hk]
      · have hb' : (k' == k₀) = false := beq_eq_false_iff_ne.mpr hk'
        simp only [Claims.set, if_neg hk, Claims.get?, List.lookup_cons, hb']
        exact ih

/-- A dict delete leaves the other keys' lookups unchanged. -/
theorem Claims.get?_erase_ne (c : Claims) (k k' : String) (h : k' ≠ k) :
    (c.erase k).get? k' = c.get? k' := by
  induction c with
  | nil => simp [Claims.erase]
  | cons p rest ih =>
    obtain ⟨k₀, v₀⟩ := p
    by_cases hk : k₀ = k
    · have hbk : (k' == k) = false := beq_eq_false_iff_ne.mpr h
      simp only [Claims.erase, if_pos hk, Claims.get?, List.lookup_cons, hk, hbk]
      exact ih
    · by_cases hk' : k' = k₀
      · subst hk'
        simp [Claims.erase, Claims.get?, List.lookup_cons, hk]
      · have hb : (k' == k₀) = false := beq_eq_false_iff_ne.mpr hk'
        simp only [Claims.erase, if_neg hk, Claims.get?, List.lookup_cons, hb]
        exact ih

/-- The only failures `jwt.decode` produces are the invalid-token and the
expired-signature exceptions. -/
theorem pyjwtDecode_error_cases (key : String) (now : Nat) (t : Tok) (e : PyExc)
    (h : pyjwtDecode key now t = .error e) :
    e = .jwtExpiredSignatureError ∨ ∃ m, e = .jwtInvalidTokenError m := by
  cases t with
  | malformed s =>
    simp only [pyjwtDecode] at h
    cases h
    exact Or.inr ⟨_, rfl⟩
  | signed k c =>
    simp only [pyjwtDecode] at h
    split at h
    · cases h
      exact Or.inr ⟨_, rfl⟩
    · split at h
      · cases h
      · split at h
        · cases h
          exact Or.inr ⟨_, rfl⟩
        · split at h
          · cases h
            exact Or.inl rfl
          · cases h

/-- Every failure of `decode_token` is the `TypeError` raised while constructing
the common expired/invalid token errors. -/
theorem decode_token_error_is_typeError (secret : String) (now : Nat) (t : Tok)
    (e : PyExc) (h : JWTManager.decode_token secret now t = .error e) :
    e = .typeError "Exception() takes no keyword arguments" := by
  unfold JWTManager.decode_token at h
  cases hd : pyjwtDecode secret now t with
  | ok c =>
    rw [hd] at h
    cases h
  | error e' =>
    rw [hd] at h
    rcases pyjwtDecode_error_cases secret now t e' hd with he | ⟨m, he⟩
    · subst he
      cases h
      rfl
    · subst he
      cases h
      rfl

/-- C2: resolving a time-valid token of a stored active principal does not
update the last-authenticated timestamp and return the principal as the claim
states: every token check passes, but `update_login_time` then assigns
`user.last_login_at` — an attribute the pydantic `User` model does not declare
(its field is `last_login`, the one the entity's own `record_login` and the test
double update) — so the pydantic assignment raises `ValueError` and the call
fails, leaving the store unchanged. -/
theorem C2_resolve_session_login_update_crashes :
    AuthService.get_logged_in_user "s" 10 lookupByEmail
        (fun st uid => InMemoryUserRepository.update_login_time st uid 10)
        [(1, alice)]
        (JWTManager.create_access_token "s" 0
          [("user_id", ClaimVal.vStr "1"), ("email", ClaimVal.vStr "alice@example.com"),
           ("status", ClaimVal.vStr "active")] (some 30)) =
      (.error (.valueError "\"User\" object has no field \"last_login_at\""), [(1, alice)]) := by
  decide

/-- C7 counterexample: refreshing a still-valid token does not always yield a
strictly later expiration — a token issued at time 0 with a 100-minute ttl and
refreshed at time 1 with the default ttl decodes to expiration 16, far earlier
than the original 100; and refreshing an undecodable token fails with the
propagated constructor `TypeError`, not with an issuance-error wrap. -/
theorem C7_refresh_not_strictly_later :
    JWTManager.refresh_token "k" 1
        (JWTManager.create_access_token "k" 0 [("user_id", ClaimVal.vStr "1")] (some 100)) none =
      .ok (Tok.signed "k" [("user_id", ClaimVal.vStr "1"), ("exp", ClaimVal.vNat 16)]) ∧
    (JWTManager.decode_token "k" 1
        (JWTManager.create_access_token "k" 0 [("user_id", ClaimVal.vStr "1")] (some 100))).map
      (fun c => c.get? "exp") = .ok (some (ClaimVal.vNat 100)) ∧
    ¬ (100 < 16) ∧
    JWTManager.refresh_token "k" 1 (Tok.malformed "x") none =
      .error (.typeError "Exception() takes no keyword arguments") := by
  refine ⟨by decide, by decide, by decide, by decide⟩

/-- C7 amended: for a token obtained from `create_access_token` whose decode at
the refresh instant succeeds, `refresh_token` succeeds and re-issues the claims
with the prior `exp` stripped; the refreshed token decodes to exactly the
original claims on every key other than `exp`, and its `exp` equals the refresh
instant plus the requested (or default 15-minute) ttl — strictly later than the
refresh instant whenever that ttl is positive, but not necessarily later than
the source token's expiration.  When the decode of the source token fails,
`refresh_token` fails with the same propagated error, which is the `TypeError`
produced by the broken common token-error constructors rather than a wrapped
common `TokenError`. -/
theorem C7_refresh_spec (secret : String) (now₀ now₁ : Nat) (data : Claims)
    (d₀ d₁ : Option Nat) (payload : Claims)
    (hdec : JWTManager.decode_token secret now₁
      (JWTManager.create_access_token secret now₀ data d₀) = .ok payload)
    (hpos : 0 < d₁.getD DEFAULT_EXPIRE_MINUTES) :
    JWTManager.refresh_token secret now₁
        (JWTManager.create_access_token secret now₀ data d₀) d₁ =
      .ok (JWTManager.create_access_token secret now₁ (payload.erase "exp") d₁) ∧
    JWTManager.decode_token secret now₁
        (JWTManager.create_access_token secret now₁ (payload.erase "exp") d₁) =
      .ok (Claims.set (payload.erase "exp") "exp"
        (.vNat (now₁ + d₁.getD DEFAULT_EXPIRE_MINUTES))) ∧
    (∀ key, key ≠ "exp" →
      (Claims.set (payload.erase "exp") "exp"
        (.vNat (now₁ + d₁.getD DEFAULT_EXPIRE_MINUTES))).get? key = payload.get? key) ∧
    (Claims.set (payload.erase "exp") "exp"
      (.vNat (now₁ + d₁.getD DEFAULT_EXPIRE_MINUTES))).get? "exp" =
      some (.vNat (now₁ + d₁.getD DEFAULT_EXPIRE_MINUTES)) ∧
    now₁ < now₁ + d₁.getD DEFAULT_EXPIRE_MINUTES ∧
    (∀ t e, JWTManager.decode_token secret now₁ t = .error e →
      JWTManager.refresh_token secret now₁ t d₁ = .error e ∧
        e = .typeError "Exception() takes no keyword arguments") := by
  have hkey : payload = Claims.set data "exp"
      (.vNat (now₀ + d₀.getD DEFAULT_EXPIRE_MINUTES)) := by
    have h := hdec
    by_cases hle : now₀ + d₀.getD DEFAULT_EXPIRE_MINUTES ≤ now₁
    · simp [JWTManager.create_access_token, pyjwtEncode, JWTManager.decode_token,
        pyjwtDecode, Claims.get?_set_self, ClaimVal.toInt?, hle] at h
    · simp [JWTManager.create_access_token, pyjwtEncode, JWTManager.decode_token,
        pyjwtDecode, Claims.get?_set_self, ClaimVal.toInt?, hle] at h
      exact h.symm
  have hexp : payload.get? "exp" =
      some (.vNat (now₀ + d₀.getD DEFAULT_EXPIRE_MINUTES)) := by
    rw [hkey]
    exact Claims.get?_set_self _ _ _
  have hnle : ¬ (now₁ + d₁.getD DEFAULT_EXPIRE_MINUTES ≤ now₁) := by omega
  refine ⟨?_, ?_, ?_, ?_, ?_, ?_⟩
  · simp [JWTManager.refresh_token, hdec, hexp]
  · simp [JWTManager.create_access_token, pyjwtEncode, JWTManager.decode_token,
      pyjwtDecode, Claims.get?_set_self, ClaimVal.toInt?, hnle]
  · intro key hkey'
    rw [Claims.get?_set_ne _ _ _ _ hkey', Claims.get?_erase_ne _ _ _ hkey']
  · exact Claims.get?_set_self _ _ _
  · omega
  · intro t e he
    have ht := decode_token_error_is_typeError secret now₁ t e he
    subst ht
    exact ⟨by simp [JWTManager.refresh_token, he], rfl⟩

/-- C7 witness: the amended statement's success leg at the concrete scenario of
the counterexample. -/
theorem C7_refresh_spec_witness :
    JWTManager.refresh_token "k" 1
        (JWTManager.create_access_token "k" 0 [("user_id", ClaimVal.vStr "1")] (some 100)) none =
      .ok (JWTManager.create_access_token "k" 1
        (Claims.erase [("user_id", ClaimVal.vStr "1"), ("exp", ClaimVal.vNat 100)] "exp") none) :=
  (C7_refresh_spec "k" 0 1 [("user_id", ClaimVal.vStr "1")] (some 100) none
    [("user_id", ClaimVal.vStr "1"), ("exp", ClaimVal.vNat 100)] (by decide) (by decide)).1

/-- C8: in the relational filter DSL, an entry whose key is not a field of the
model is silently skipped — the result equals that of the same filter
dictionary with the entry removed, and no error arises — while an entry on a
known field narrows by equality for a scalar value, by membership for a list
value, and by the recognized `min`/`max`/`like` conditions for a dict value. -/
theorem C8_filter_dsl (fields : List String) (likeFn : String → String → Bool)
    (f : String) (v : FilterVal) (pre post : List (String × FilterVal))
    (rows : List SqlRow) :
    (fields.contains f = false →
      SQLModelRepository.applyFilter fields likeFn (pre ++ (f, v) :: post) rows =
        SQLModelRepository.applyFilter fields likeFn (pre ++ post) rows) ∧
    (fields.contains f = true →
      (∀ x, SQLModelRepository.applyFilter fields likeFn [(f, FilterVal.scalar x)] rows =
        rows.filter (fun r => r.get? f == some x)) ∧
      (∀ xs, SQLModelRepository.applyFilter fields likeFn [(f, FilterVal.vals xs)] rows =
        rows.filter (fun r => (r.get? f).any (fun x => xs.contains x))) ∧
      (∀ mn mx lk,
        SQLModelRepository.applyFilter fields likeFn [(f, FilterVal.range mn mx lk)] rows =
          rows.filter (fun r =>
            mn.all (fun m => (r.get? f).any (fun x => FieldVal.leB m x)) &&
            mx.all (fun m => (r.get? f).any (fun x => FieldVal.leB x m)) &&
            lk.all (fun pat => (r.get? f).any (fun s =>
              match s with
              | .str s' => likeFn s' pat
              | .int _ => false))))) := by
  constructor
  · intro h
    have h' : f ∉ fields := by simpa using h
    unfold SQLModelRepository.applyFilter
    rw [List.foldl_append, List.foldl_append, List.foldl_cons]
    simp [h']
  · intro h
    have h' : f ∈ fields := by simpa using h
    refine ⟨fun x => ?_, fun xs => ?_, fun mn mx lk => ?_⟩
    · simp [SQLModelRepository.applyFilter, h', sqlCondSatisfied]
    · simp only [SQLModelRepository.applyFilter, List.foldl_cons, List.foldl_nil]
      rw [if_pos (by simpa using h')]
      apply List.filter_congr
      intro r _
      cases hr : r.get? f <;> simp [sqlCondSatisfied, hr]
    · simp only [SQLModelRepository.applyFilter, List.foldl_cons, List.foldl_nil]
      rw [if_pos (by simpa using h')]
      apply List.filter_congr
      intro r _
      rcases hr : r.get? f with - | x
      · cases mn <;> cases mx <;> cases lk <;> simp [sqlCondSatisfied, hr]
      · cases x <;> cases mn <;> cases mx <;> cases lk <;> simp [sqlCondSatisfied, hr]

/-- C8 witness: a filter entry on an unknown field is dropped at a concrete
model, unknown key and one-row table. -/
theorem C8_filter_dsl_witness :
    SQLModelRepository.applyFilter ["email", "status"] (fun _ _ => false)
        [("bogus", FilterVal.scalar (FieldVal.int 3))] [[("email", FieldVal.str "a")]] =
      SQLModelRepository.applyFilter ["email", "status"] (fun _ _ => false) []
        [[("email", FieldVal.str "a")]] :=
  (C8_filter_dsl ["email", "status"] (fun _ _ => false) "bogus"
    (FilterVal.scalar (FieldVal.int 3)) [] [] [[("email", FieldVal.str "a")]]).1 (by decide)

/-- Dict assignment with a key absent from the storage appends the binding. -/
theorem dictInsert_fresh {α : Type} (store : Storage α) (k : Nat) (v : α)
    (h : ∀ p ∈ store, p.1 ≠ k) : dictInsert store k v = store ++ [(k, v)] := by
  induction store with
  | nil => rfl
  | cons p rest ih =>
    obtain ⟨k', v'⟩ := p
    have hp : k' ≠ k := h (k', v') (by simp)
    simp only [dictInsert, if_neg hp, List.cons_append]
    rw [ih (fun q hq => h q (by simp [hq]))]

/-- Saving a batch of entities with pairwise-distinct identifiers, none already
stored, appends them to the storage in order. -/
theorem foldl_save_fresh {α : Type} (getId : α → Nat) (batch : List α) :
    ∀ store : Storage α,
      (∀ u ∈ batch, ∀ p ∈ store, p.1 ≠ getId u) →
      (batch.map getId).Nodup →
      batch.foldl (fun s u => InMemoryRepository.save getId s u) store =
        store ++ batch.map (fun u => (getId u, u)) := by
  induction batch with
  | nil =>
    intro store _ _
    simp
  | cons u rest ih =>
    intro store hfresh hnodup
    simp only [List.foldl_cons]
    have h1 : InMemoryRepository.save getId store u = store ++ [(getId u, u)] :=
      dictInsert_fresh store (getId u) u (fun p hp => hfresh u (by simp) p hp)
    rw [h1, ih (store ++ [(getId u, u)]) ?_ ?_]
    · simp
    · intro w hw p hp
      rcases List.mem_append.mp hp with hp | hp
      · exact hfresh w (List.mem_cons_of_mem _ hw) p hp
      · have hp' : p = (getId u, u) := by simpa using hp
        subst hp'
        have hnd : getId u ∉ rest.map getId :=
          (List.nodup_cons.mp (by simpa using hnodup)).1
        intro hc
        apply hnd
        rw [show getId u = getId w from hc]
        exact List.mem_map_of_mem getId hw
    · exact (List.nodup_cons.mp (by simpa using hnodup)).2

/-- Slicing a list at offsets `0, L, 2L, …` reassembles it once `k` pages cover
its length. -/
theorem flatten_range_chunks {α : Type} (L : Nat) (_hL : 0 < L) :
    ∀ (k : Nat) (l : List α), l.length ≤ k * L →
      ((List.range k).map (fun i => (l.drop (i * L)).take L)).flatten = l := by
  intro k
  induction k with
  | zero =>
    intro l hl
    have h0 : l.length = 0 := Nat.le_zero.mp (by simpa using hl)
    simp [List.eq_nil_of_length_eq_zero h0]
  | succ k ih =>
    intro l hl
    rw [List.range_succ_eq_map, List.map_cons, List.map_map, List.flatten_cons]
    have hmap : (List.range k).map ((fun i => (l.drop (i * L)).take L) ∘ Nat.succ) =
        (List.range k).map (fun i => ((l.drop L).drop (i * L)).take L) := by
      apply List.map_congr_left
      intro i _
      simp [Function.comp, Nat.succ_mul, List.drop_drop, Nat.add_comm]
    have hcov : (l.drop L).length ≤ k * L := by
      rw [List.length_drop]
      exact Nat.sub_le_iff_le_add.mpr (by rw [Nat.succ_mul] at hl; exact hl)
    rw [hmap, ih (l.drop L) hcov]
    simp

/-- C9: over the volatile backend with no filters and no sort key, saving a
batch of records with pairwise-distinct identifiers into an empty store and
then paging with `list_all` at offsets `0, L, 2L, …` yields pages whose
concatenation is exactly the saved batch in insertion order — a partition with
no duplicates and no omissions. -/
theorem C9_list_all_pages_partition {α : Type} (getId : α → Nat)
    (records : List α) (L k : Nat) (hL : 0 < L) (hcover : records.length ≤ k * L)
    (hids : (records.map getId).Nodup) :
    ((List.range k).map (fun i =>
      InMemoryRepository.list_all
        (records.foldl (fun s u => InMemoryRepository.save getId s u) []) L (i * L)
        none none)).flatten = records := by
  have hstore : records.foldl (fun s u => InMemoryRepository.save getId s u)
      ([] : Storage α) = records.map (fun u => (getId u, u)) := by
    simpa using foldl_save_fresh getId records [] (by simp) hids
  have hvals : (records.map (fun u => (getId u, u))).map Prod.snd = records := by
    rw [List.map_map]
    rw [show (Prod.snd ∘ fun u : α => (getId u, u)) = fun u : α => u from rfl]
    exact List.map_id' records
  have hlist : ∀ off,
      InMemoryRepository.list_all (records.map (fun u => (getId u, u))) L off none none =
        (records.drop off).take L := by
    intro off
    simp [InMemoryRepository.list_all, hvals]
  rw [hstore, List.map_congr_left (fun i _ => hlist (i * L))]
  exact flatten_range_chunks L hL k records hcover

/-- C9 witness: 5 records paged with limit 2 over 3 pages (sizes 2, 2, 1). -/
theorem C9_list_all_pages_partition_witness :
    0 < 2 ∧ ([10, 20, 30, 40, 50] : List Nat).length ≤ 3 * 2 ∧
    ((List.range 3).map (fun i =>
      InMemoryRepository.list_all
        (([10, 20, 30, 40, 50] : List Nat).foldl
          (fun s u => InMemoryRepository.save (fun n => n) s u) []) 2 (i * 2)
        none none)).flatten = [10, 20, 30, 40, 50] :=
  ⟨by decide, by decide,
    C9_list_all_pages_partition (fun n => n) [10, 20, 30, 40, 50] 2 3
      (by decide) (by decide) (by decide)⟩
